import Mathlib

/-!
Shallow embedding of `src/ihome/api_1_0/passport.py` (the `register` and
`login` views) together with the external stores they touch.

Modelling choices:
* The redis store is split by key family, which never collide in the code:
  `codes` holds the `sms_code_<mobile>` entries (string values) and `nums`
  holds the `access_nums_<ip>` attempt counters.  Counter entries are stored
  as naturals: in the code they are only ever written by `redis_store.incr`,
  which maintains decimal numeric strings, and read back through `int(...)`.
* Store/database exceptions are supplied by an explicit fault environment
  (`RegEnv`, `LoginEnv`): a `True` flag means the corresponding call raises,
  which the python code catches where a `try` block surrounds the call.
* `flask.session` is modelled as an optional record of the three fields the
  code writes; `User.query...first()` is a lookup in a list of user rows;
  `user.check_password` (external hashing primitive) is modelled as equality
  with the stored secret.
-/

namespace Ihome

/-- Modelled from the spec: the error-kind constants of
`ihome.utils.response_code.RET` (that module is not under `src/`).  Section 7
of the spec lists the caller-facing error kinds as distinct; the constants
used by `passport.py` are `OK`, `DBERR` (storage error), `NODATA`
(code expired/missing), `DATAEXIST` (identity already exists), `DATAERR`
(data error: code mismatch / invalid credentials, also reused by `login` for
input validation), `PARAMERR` (invalid input in `register`), `REQERR`
(too many attempts) and `SESSIONERR`. -/
inductive RET where
  | OK
  | DBERR
  | NODATA
  | DATAEXIST
  | DATAERR
  | PARAMERR
  | REQERR
  | SESSIONERR
  deriving DecidableEq

/-- A JSON reply `jsonify(errno=..., errmsg=...)`. -/
structure Response where
  errno : RET
  errmsg : String
  deriving DecidableEq

/-- A row of the external user table (`ihome.models.User`): `register` sets
`name`, `mobile` and `password`; `id` is assigned by the database. -/
structure UserRec where
  id : Nat
  name : String
  mobile : String
  password : String
  deriving DecidableEq

/-- The three session fields written by the code. -/
structure SessionData where
  name : String
  mobile : String
  user_id : Nat
  deriving DecidableEq

/-- `redis_store.get` on a string-valued key family (association list). -/
def kvGet (st : List (String × String)) (k : String) : Option String :=
  (st.find? (fun p => p.1 == k)).map (fun p => p.2)

/-- `redis_store.delete` on a string-valued key family. -/
def kvDel (st : List (String × String)) (k : String) : List (String × String) :=
  st.filter (fun p => p.1 != k)

/-- `redis_store.get` on the numeric counter key family. -/
def kvGetN (st : List (String × Nat)) (k : String) : Option Nat :=
  (st.find? (fun p => p.1 == k)).map (fun p => p.2)

/-- Store a counter value, replacing any previous entry for the key. -/
def kvSetN (st : List (String × Nat)) (k : String) (v : Nat) : List (String × Nat) :=
  (k, v) :: st.filter (fun p => p.1 != k)

/-- The combined external state the two views read and write. -/
structure St where
  codes : List (String × String)
  nums : List (String × Nat)
  users : List UserRec
  sess : Option SessionData
  deriving DecidableEq

/-- Python truthiness of an optional JSON string field, as tested by
`all([...])`: absent (`None`) and the empty string are falsy. -/
def truthy : Option String → Bool
  | none => false
  | some s => s != ""

/-- The regex check over the character list: the pattern of
`re.match(r'1[345678]\d{9}', mobile)`.  `re.match` anchors only at the
start of the string, so trailing characters are unconstrained. -/
def matchMobileChars : List Char → Bool
  | c0 :: c1 :: rest =>
      c0 == '1'
        && (c1 == '3' || c1 == '4' || c1 == '5' || c1 == '6' || c1 == '7' || c1 == '8')
        && decide (9 ≤ rest.length)
        && (rest.take 9).all Char.isDigit
  | _ => false

/-- `re.match(r'1[345678]\d{9}', s)` is not `None`. -/
def matchMobile (s : String) : Bool :=
  matchMobileChars s.data

/-- Outcome of `db.session.add(user); db.session.commit()`. -/
inductive DbAdd where
  | ok
  | integrityError
  | otherError
  deriving DecidableEq

/-- Fault environment for one `register` request: whether
`redis_store.get`, `redis_store.delete` raise, and the database outcome. -/
structure RegEnv where
  getRaises : Bool
  delRaises : Bool
  dbAdd : DbAdd
  deriving DecidableEq

/-- The four JSON fields `register` reads (each may be absent). -/
structure RegisterInput where
  mobile : Option String
  sms_code : Option String
  password : Option String
  password2 : Option String
  deriving DecidableEq

/-- `register` (POST /users), lines 12-85 of `passport.py`. -/
def register (env : RegEnv) (st : St) (inp : RegisterInput) : Response × St :=
  if !(truthy inp.mobile && truthy inp.sms_code && truthy inp.password && truthy inp.password2) then
    (⟨RET.PARAMERR, "参数不完整"⟩, st)
  else
    let mobile := inp.mobile.getD ""
    if !(matchMobile mobile) then
      (⟨RET.PARAMERR, "手机格式错误"⟩, st)
    else if inp.password ≠ inp.password2 then
      (⟨RET.PARAMERR, "两次密码不一致"⟩, st)
    else if env.getRaises then
      (⟨RET.DBERR, "读取真实短信验证码异常"⟩, st)
    else
      match kvGet st.codes ("sms_code_" ++ mobile) with
      | none => (⟨RET.NODATA, "短信验证码失效"⟩, st)
      | some real =>
        -- the delete of the stored code: an exception here is logged and swallowed
        let st1 :=
          if env.delRaises then st
          else { st with codes := kvDel st.codes ("sms_code_" ++ mobile) }
        if real ≠ inp.sms_code.getD "" then
          (⟨RET.DATAERR, "短信验证码错误"⟩, st1)
        else
          match env.dbAdd with
          | DbAdd.integrityError => (⟨RET.DATAEXIST, "手机号已存在"⟩, st1)
          | DbAdd.otherError => (⟨RET.DATAERR, "查询数据库异常"⟩, st1)
          | DbAdd.ok =>
            let uid := st1.users.length
            let u : UserRec := ⟨uid, mobile, mobile, inp.password.getD ""⟩
            (⟨RET.OK, "注册成功"⟩,
              { st1 with
                  users := st1.users ++ [u]
                  sess := some ⟨mobile, mobile, uid⟩ })

/-- Fault environment for one `login` request: whether the counter read,
the user query, the counter increment or the expiry refresh raise. -/
structure LoginEnv where
  numGetRaises : Bool
  queryRaises : Bool
  incrRaises : Bool
  expireRaises : Bool
  deriving DecidableEq

/-- The two JSON fields `login` reads: `mobile` defaults to the empty
string (`req_dict.get('mobile', '')`), `password` may be absent. -/
structure LoginInput where
  mobile : String
  password : Option String
  deriving DecidableEq

/-- Lines 129-134: `redis_store.incr` then `redis_store.expire`, inside a
`try` whose exception is only logged.  If the increment raises, the counter
is unchanged; the expiry refresh has no effect on the untimed state (TTL
expiry is modelled as absence of the entry), so `expireRaises` changes
nothing here but is caught the same way. -/
def recordFailure (env : LoginEnv) (st : St) (ip : String) : St :=
  if env.incrRaises then st
  else
    let key := "access_nums_" ++ ip
    let n := match kvGetN st.nums key with
      | none => 1
      | some m => m + 1
    { st with nums := kvSetN st.nums key n }

/-- Lines 111-117: the attempt-counter test.  A raising read is caught and
the `else` block skipped, so the request counts as not blocked. -/
def isBlocked (maxT : Nat) (env : LoginEnv) (st : St) (ip : String) : Bool :=
  if env.numGetRaises then false
  else
    match kvGetN st.nums ("access_nums_" ++ ip) with
    | none => false
    | some n => decide (maxT ≤ n)

/-- Lines 119-143 of `login`: the user query, the credential comparison,
the failure recording and the session establishment. -/
def loginCredentialPhase (env : LoginEnv) (st : St) (ip : String) (inp : LoginInput) :
    Response × St :=
  if env.queryRaises then
    (⟨RET.DBERR, "获取用户信息失败"⟩, st)
  else
    match st.users.find? (fun u => u.mobile == inp.mobile) with
    | none => (⟨RET.DATAERR, "用户名或密码错误"⟩, recordFailure env st ip)
    | some u =>
      if u.password ≠ inp.password.getD "" then
        (⟨RET.DATAERR, "用户名或密码错误"⟩, recordFailure env st ip)
      else
        (⟨RET.OK, "登陆成功"⟩, { st with sess := some ⟨u.name, u.mobile, u.id⟩ })

/-- `login` (POST /session), lines 89-143 of `passport.py`.  `maxT` is the
configuration constant `constants.LOGIN_ERROR_MAX_TIMES`. -/
def login (maxT : Nat) (env : LoginEnv) (st : St) (ip : String) (inp : LoginInput) :
    Response × St :=
  if !(inp.mobile != "" && truthy inp.password) then
    (⟨RET.DATAERR, "参数不完整"⟩, st)
  else if !(matchMobile inp.mobile) then
    (⟨RET.DATAERR, "手机号格式不正确"⟩, st)
  else if isBlocked maxT env st ip then
    (⟨RET.REQERR, "错误次数太多，请稍后重试"⟩, st)
  else
    loginCredentialPhase env st ip inp

/-- Iterate a fixed `login` request `j` times, threading the state. -/
def loginIter (maxT : Nat) (env : LoginEnv) (ip : String) (inp : LoginInput) :
    Nat → St → St
  | 0, st => st
  | k + 1, st => loginIter maxT env ip inp k (login maxT env st ip inp).2

/-- Deleting a key removes it from a string-valued key family. -/
theorem kvGet_kvDel (st : List (String × String)) (k : String) :
    kvGet (kvDel st k) k = none := by
  induction st with
  | nil => rfl
  | cons p t ih =>
    by_cases h : p.1 = k
    · simpa [kvDel, List.filter_cons, h] using ih
    · simp only [kvDel, List.filter_cons] at ih ⊢
      simp only [bne, h, not_false_eq_true, beq_iff_eq, if_pos, Bool.not_eq_true']
      simp only [kvGet, List.find?]
      have hb : (p.1 == k) = false := by simpa using h
      simp only [kvGet, List.find?, hb]
      exact ih

/-- Setting a counter makes it readable at the stored value. -/
theorem kvGetN_kvSetN (st : List (String × Nat)) (k : String) (v : Nat) :
    kvGetN (kvSetN st k v) k = some v := by
  simp [kvGetN, kvSetN]

/-- One failed login below the threshold increments the attempt counter of
the client address and changes nothing else. -/
theorem login_fail_step
    (maxT : Nat) (st : St) (ip m pw : String) (c : Nat)
    (hm : matchMobile m = true) (hm0 : m ≠ "") (hpw : pw ≠ "")
    (hc : kvGetN st.nums ("access_nums_" ++ ip) = some c) (hlt : c < maxT)
    (hu : st.users.find? (fun u => u.mobile == m) = none) :
    (login maxT ⟨false, false, false, false⟩ st ip ⟨m, some pw⟩).2
      = { st with nums := kvSetN st.nums ("access_nums_" ++ ip) (c + 1) } := by
  have hblocked : isBlocked maxT ⟨false, false, false, false⟩ st ip = false := by
    simp [isBlocked, hc]
    omega
  simp [login, truthy, hm, hm0, hpw, hblocked, loginCredentialPhase, hu, recordFailure, hc]

/-- Iterating a failing login adds one to the counter per request, as long
as the count stays within the threshold; the user table is untouched. -/
theorem loginIter_fail_count
    (maxT : Nat) (ip m pw : String)
    (hm : matchMobile m = true) (hm0 : m ≠ "") (hpw : pw ≠ "") :
    ∀ (j : Nat) (st : St) (c : Nat),
      kvGetN st.nums ("access_nums_" ++ ip) = some c →
      st.users.find? (fun u => u.mobile == m) = none →
      c + j ≤ maxT →
      kvGetN (loginIter maxT ⟨false, false, false, false⟩ ip ⟨m, some pw⟩ j st).nums
          ("access_nums_" ++ ip) = some (c + j) ∧
      (loginIter maxT ⟨false, false, false, false⟩ ip ⟨m, some pw⟩ j st).users
          = st.users := by
  intro j
  induction j with
  | zero =>
    intro st c hc hu _
    exact ⟨by simpa using hc, rfl⟩
  | succ k ih =>
    intro st c hc hu hj
    have hstep := login_fail_step maxT st ip m pw c hm hm0 hpw hc (by omega) hu
    have hrec := ih { st with nums := kvSetN st.nums ("access_nums_" ++ ip) (c + 1) }
      (c + 1) (by simpa using kvGetN_kvSetN st.nums ("access_nums_" ++ ip) (c + 1))
      (by simpa using hu) (by omega)
    constructor
    · have : c + 1 + k = c + (k + 1) := by omega
      rw [loginIter, hstep]
      rw [this] at hrec
      exact hrec.1
    · rw [loginIter, hstep]
      exact hrec.2

/-- C1: with a live verification code stored for a subject key, a `register`
request with the correct code succeeds and consumes the code (the stored
entry is gone afterwards), an immediately repeated submission of the same
correct code fails with `NODATA` (code expired or missing), and a first
submission of a wrong code also deletes the stored code. -/
theorem register_code_single_use
    (st : St) (m c pw : String)
    (hm : matchMobile m = true) (hm0 : m ≠ "") (hc : c ≠ "") (hpw : pw ≠ "")
    (hlive : kvGet st.codes ("sms_code_" ++ m) = some c) :
    (register ⟨false, false, DbAdd.ok⟩ st ⟨some m, some c, some pw, some pw⟩).1.errno = RET.OK ∧
    kvGet (register ⟨false, false, DbAdd.ok⟩ st ⟨some m, some c, some pw, some pw⟩).2.codes
      ("sms_code_" ++ m) = none ∧
    (register ⟨false, false, DbAdd.ok⟩
        (register ⟨false, false, DbAdd.ok⟩ st ⟨some m, some c, some pw, some pw⟩).2
        ⟨some m, some c, some pw, some pw⟩).1.errno = RET.NODATA ∧
    ∀ c2 : String, c2 ≠ "" → c2 ≠ c →
      (register ⟨false, false, DbAdd.ok⟩ st ⟨some m, some c2, some pw, some pw⟩).1.errno
          = RET.DATAERR ∧
      kvGet (register ⟨false, false, DbAdd.ok⟩ st ⟨some m, some c2, some pw, some pw⟩).2.codes
        ("sms_code_" ++ m) = none := by
  refine ⟨?_, ?_, ?_, ?_⟩
  · simp [register, truthy, hm, hm0, hc, hpw, hlive]
  · simp [register, truthy, hm, hm0, hc, hpw, hlive, kvGet_kvDel]
  · simp [register, truthy, hm, hm0, hc, hpw, hlive, kvGet_kvDel]
  · intro c2 hc2 hne
    constructor
    · simp [register, truthy, hm, hm0, hc2, hpw, hlive, Ne.symm hne]
    · simp [register, truthy, hm, hm0, hc2, hpw, hlive, Ne.symm hne, kvGet_kvDel]

/-- Witness for `register_code_single_use`: the scenario of section 8 of the
spec, subject `13800001111` with stored code `4321`. -/
theorem register_code_single_use_witness :
    matchMobile "13800001111" = true ∧
    (register ⟨false, false, DbAdd.ok⟩ ⟨[("sms_code_13800001111", "4321")], [], [], none⟩
        ⟨some "13800001111", some "4321", some "pw", some "pw"⟩).1.errno = RET.OK :=
  ⟨by decide,
    (register_code_single_use ⟨[("sms_code_13800001111", "4321")], [], [], none⟩
      "13800001111" "4321" "pw" (by decide) (by decide) (by decide) (by decide)
      (by decide)).1⟩

/-- C2: a `login` with an unregistered mobile and a `login` with a registered
mobile but a wrong password return the identical response (`DATAERR`,
`用户名或密码错误`), so the caller cannot distinguish the two cases. -/
theorem login_uniform_credential_error
    (maxT : Nat) (stA stB : St) (ipA ipB mA mB pwA pwB : String)
    (hmA : matchMobile mA = true) (hmA0 : mA ≠ "") (hpwA : pwA ≠ "")
    (hmB : matchMobile mB = true) (hmB0 : mB ≠ "") (hpwB : pwB ≠ "")
    (hnbA : isBlocked maxT ⟨false, false, false, false⟩ stA ipA = false)
    (hnbB : isBlocked maxT ⟨false, false, false, false⟩ stB ipB = false)
    (hnone : stA.users.find? (fun u => u.mobile == mA) = none)
    (hfound : ∃ u, stB.users.find? (fun v => v.mobile == mB) = some u ∧ u.password ≠ pwB) :
    (login maxT ⟨false, false, false, false⟩ stA ipA ⟨mA, some pwA⟩).1
        = (login maxT ⟨false, false, false, false⟩ stB ipB ⟨mB, some pwB⟩).1 ∧
    (login maxT ⟨false, false, false, false⟩ stA ipA ⟨mA, some pwA⟩).1
        = ⟨RET.DATAERR, "用户名或密码错误"⟩ := by
  obtain ⟨u, hu, hup⟩ := hfound
  have hA : (login maxT ⟨false, false, false, false⟩ stA ipA ⟨mA, some pwA⟩).1
      = ⟨RET.DATAERR, "用户名或密码错误"⟩ := by
    simp [login, truthy, hmA, hmA0, hpwA, hnbA, loginCredentialPhase, hnone]
  have hB : (login maxT ⟨false, false, false, false⟩ stB ipB ⟨mB, some pwB⟩).1
      = ⟨RET.DATAERR, "用户名或密码错误"⟩ := by
    simp [login, truthy, hmB, hmB0, hpwB, hnbB, loginCredentialPhase, hu, hup]
  exact ⟨hA.trans hB.symm, hA⟩

/-- Witness for `login_uniform_credential_error`: empty user table versus a
table with user `13800001111` and the wrong password submitted. -/
theorem login_uniform_credential_error_witness :
    matchMobile "13800001111" = true ∧
    (login 5 ⟨false, false, false, false⟩ ⟨[], [], [], none⟩ "a"
        ⟨"13800001111", some "x"⟩).1 = ⟨RET.DATAERR, "用户名或密码错误"⟩ :=
  ⟨by decide,
    (login_uniform_credential_error 5 ⟨[], [], [], none⟩
        ⟨[], [], [⟨0, "u", "13800001111", "pw"⟩], none⟩ "a" "b"
        "13800001111" "13800001111" "x" "bad"
        (by decide) (by decide) (by decide) (by decide) (by decide) (by decide)
        (by decide) (by decide) (by decide)
        ⟨⟨0, "u", "13800001111", "pw"⟩, by decide, by decide⟩).2⟩

/-- C3: with a stored attempt counter at least `maxT`, `login` answers
`REQERR` and leaves the state untouched, for every content of the user table
and even when the user query would raise (the credential store is never
consulted); with the counter absent or below `maxT`, `login` reduces to the
credential phase; the first recorded failure creates the counter at 1, and
after exactly `maxT` failing logins from an absent counter the counter holds
`maxT` and the next request is rejected with `REQERR`. -/
theorem login_attempt_limiter
    (maxT : Nat) (env : LoginEnv) (st : St) (ip m pw : String)
    (hm : matchMobile m = true) (hm0 : m ≠ "") (hpw : pw ≠ "")
    (henv : env.numGetRaises = false) :
    (∀ n, kvGetN st.nums ("access_nums_" ++ ip) = some n → maxT ≤ n →
        login maxT env st ip ⟨m, some pw⟩ = (⟨RET.REQERR, "错误次数太多，请稍后重试"⟩, st)) ∧
    (kvGetN st.nums ("access_nums_" ++ ip) = none →
        login maxT env st ip ⟨m, some pw⟩ = loginCredentialPhase env st ip ⟨m, some pw⟩) ∧
    (∀ n, kvGetN st.nums ("access_nums_" ++ ip) = some n → n < maxT →
        login maxT env st ip ⟨m, some pw⟩ = loginCredentialPhase env st ip ⟨m, some pw⟩) ∧
    (env = ⟨false, false, false, false⟩ →
     kvGetN st.nums ("access_nums_" ++ ip) = none →
     st.users.find? (fun u => u.mobile == m) = none →
     kvGetN ((login maxT env st ip ⟨m, some pw⟩).2).nums ("access_nums_" ++ ip) = some 1) ∧
    (env = ⟨false, false, false, false⟩ → 0 < maxT →
     kvGetN st.nums ("access_nums_" ++ ip) = none →
     st.users.find? (fun u => u.mobile == m) = none →
     kvGetN (loginIter maxT env ip ⟨m, some pw⟩ maxT st).nums ("access_nums_" ++ ip)
         = some maxT ∧
     (login maxT env (loginIter maxT env ip ⟨m, some pw⟩ maxT st) ip ⟨m, some pw⟩).1
         = ⟨RET.REQERR, "错误次数太多，请稍后重试"⟩) := by
  have hfirst : ∀ (henv2 : env = ⟨false, false, false, false⟩),
      kvGetN st.nums ("access_nums_" ++ ip) = none →
      st.users.find? (fun u => u.mobile == m) = none →
      (login maxT env st ip ⟨m, some pw⟩).2
        = { st with nums := kvSetN st.nums ("access_nums_" ++ ip) 1 } := by
    intro henv2 hnone hu
    subst henv2
    have hblocked : isBlocked maxT ⟨false, false, false, false⟩ st ip = false := by
      simp [isBlocked, hnone]
    simp [login, truthy, hm, hm0, hpw, hblocked, loginCredentialPhase, hu, recordFailure, hnone]
  refine ⟨?_, ?_, ?_, ?_, ?_⟩
  · intro n hn hge
    have hblocked : isBlocked maxT env st ip = true := by
      simp [isBlocked, henv, hn, hge]
    simp [login, truthy, hm, hm0, hpw, hblocked]
  · intro hnone
    have hblocked : isBlocked maxT env st ip = false := by
      simp [isBlocked, henv, hnone]
    simp [login, truthy, hm, hm0, hpw, hblocked]
  · intro n hn hlt
    have hblocked : isBlocked maxT env st ip = false := by
      simp [isBlocked, henv, hn]
      omega
    simp [login, truthy, hm, hm0, hpw, hblocked]
  · intro henv2 hnone hu
    rw [hfirst henv2 hnone hu]
    simpa using kvGetN_kvSetN st.nums ("access_nums_" ++ ip) 1
  · intro henv2 hpos hnone hu
    subst henv2
    obtain ⟨k, hk⟩ : ∃ k, maxT = k + 1 := ⟨maxT - 1, by omega⟩
    subst hk
    have hstep := hfirst rfl hnone hu
    have hrec := loginIter_fail_count (k + 1) ip m pw hm hm0 hpw k
      { st with nums := kvSetN st.nums ("access_nums_" ++ ip) 1 } 1
      (by simpa using kvGetN_kvSetN st.nums ("access_nums_" ++ ip) 1)
      (by simpa using hu) (by omega)
    have hiter : loginIter (k + 1) ⟨false, false, false, false⟩ ip ⟨m, some pw⟩ (k + 1) st
        = loginIter (k + 1) ⟨false, false, false, false⟩ ip ⟨m, some pw⟩ k
            { st with nums := kvSetN st.nums ("access_nums_" ++ ip) 1 } := by
      rw [loginIter, hstep]
    have hcount : kvGetN (loginIter (k + 1) ⟨false, false, false, false⟩ ip
        ⟨m, some pw⟩ (k + 1) st).nums ("access_nums_" ++ ip) = some (k + 1) := by
      rw [hiter]
      have hr := hrec.1
      rwa [Nat.add_comm 1 k] at hr
    refine ⟨hcount, ?_⟩
    have hblocked : isBlocked (k + 1) ⟨false, false, false, false⟩
        (loginIter (k + 1) ⟨false, false, false, false⟩ ip ⟨m, some pw⟩ (k + 1) st) ip
        = true := by
      simp [isBlocked, hcount]
    simp [login, truthy, hm, hm0, hpw, hblocked]

/-- Witness for `login_attempt_limiter`: a counter already at the threshold
5 makes `login` answer `REQERR` and leave the state unchanged. -/
theorem login_attempt_limiter_witness :
    kvGetN [("access_nums_ip", 5)] ("access_nums_" ++ "ip") = some 5 ∧
    login 5 ⟨false, false, false, false⟩ ⟨[], [("access_nums_ip", 5)], [], none⟩ "ip"
        ⟨"13800001111", some "pw"⟩
      = (⟨RET.REQERR, "错误次数太多，请稍后重试"⟩, ⟨[], [("access_nums_ip", 5)], [], none⟩) :=
  ⟨by decide,
    (login_attempt_limiter 5 ⟨false, false, false, false⟩
        ⟨[], [("access_nums_ip", 5)], [], none⟩ "ip" "13800001111" "pw"
        (by decide) (by decide) (by decide) rfl).1 5 (by decide) (by decide)⟩

/-- C4 counterexample: with a live code for `13800001111`, a raising
verification-code delete leaves `register` returning `OK` (not the storage
error `DBERR`), and a non-uniqueness database failure makes `register`
return `DATAERR` (the business data-error kind), not `DBERR`. -/
theorem storage_error_conversion_cex :
    (register ⟨false, true, DbAdd.ok⟩ ⟨[("sms_code_13800001111", "4321")], [], [], none⟩
        ⟨some "13800001111", some "4321", some "pw", some "pw"⟩).1.errno = RET.OK ∧
    RET.OK ≠ RET.DBERR ∧
    (register ⟨false, false, DbAdd.otherError⟩
        ⟨[("sms_code_13800001111", "4321")], [], [], none⟩
        ⟨some "13800001111", some "4321", some "pw", some "pw"⟩).1.errno = RET.DATAERR ∧
    RET.DATAERR ≠ RET.DBERR := by
  decide

/-- C4 (amended): store read failures are converted to `DBERR` at the
boundary (the verification-code read in `register`, the user query in
`login`); but a failure of the verification-code delete in `register` is
caught and ignored, the flow proceeding to a possible `OK` with the code
still stored, and a non-uniqueness persistence failure yields `DATAERR`,
not `DBERR`. -/
theorem storage_error_conversion
    (st : St) (m c pw ip : String) (env : LoginEnv)
    (hm : matchMobile m = true) (hm0 : m ≠ "") (hc : c ≠ "") (hpw : pw ≠ "")
    (hlive : kvGet st.codes ("sms_code_" ++ m) = some c)
    (hq : env.queryRaises = true)
    (hnb : isBlocked 5 env st ip = false) :
    (∀ (d : Bool) (a : DbAdd),
        register ⟨true, d, a⟩ st ⟨some m, some c, some pw, some pw⟩
          = (⟨RET.DBERR, "读取真实短信验证码异常"⟩, st)) ∧
    (login 5 env st ip ⟨m, some pw⟩).1 = ⟨RET.DBERR, "获取用户信息失败"⟩ ∧
    (register ⟨false, true, DbAdd.ok⟩ st ⟨some m, some c, some pw, some pw⟩).1.errno
        = RET.OK ∧
    (register ⟨false, true, DbAdd.ok⟩ st ⟨some m, some c, some pw, some pw⟩).2.codes
        = st.codes ∧
    (register ⟨false, false, DbAdd.otherError⟩ st ⟨some m, some c, some pw, some pw⟩).1
        = ⟨RET.DATAERR, "查询数据库异常"⟩ := by
  refine ⟨?_, ?_, ?_, ?_, ?_⟩
  · intro d a
    simp [register, truthy, hm, hm0, hc, hpw]
  · simp [login, truthy, hm, hm0, hpw, hnb, loginCredentialPhase, hq]
  · simp [register, truthy, hm, hm0, hc, hpw, hlive]
  · simp [register, truthy, hm, hm0, hc, hpw, hlive]
  · simp [register, truthy, hm, hm0, hc, hpw, hlive]

/-- Witness for `storage_error_conversion`: a raising user query turns into
`DBERR` for the caller. -/
theorem storage_error_conversion_witness :
    kvGet [("sms_code_13800001111", "4321")] ("sms_code_" ++ "13800001111") = some "4321" ∧
    (login 5 ⟨false, true, false, false⟩ ⟨[("sms_code_13800001111", "4321")], [], [], none⟩
        "ip" ⟨"13800001111", some "pw"⟩).1 = ⟨RET.DBERR, "获取用户信息失败"⟩ :=
  ⟨by decide,
    (storage_error_conversion ⟨[("sms_code_13800001111", "4321")], [], [], none⟩
        "13800001111" "4321" "pw" "ip" ⟨false, true, false, false⟩
        (by decide) (by decide) (by decide) (by decide) (by decide) rfl
        (by decide)).2.1⟩

/-- C5 counterexample: on a request with a missing password, `register`
answers with the `PARAMERR` kind while `login` answers with the `DATAERR`
kind, and the two kinds are distinct — the input-validation error kind is
not the same in the two operations. -/
theorem input_validation_kinds_cex :
    (register ⟨false, false, DbAdd.ok⟩ ⟨[], [], [], none⟩
        ⟨some "13800001111", some "4321", none, none⟩).1.errno = RET.PARAMERR ∧
    (login 5 ⟨false, false, false, false⟩ ⟨[], [], [], none⟩ "ip"
        ⟨"13800001111", none⟩).1.errno = RET.DATAERR ∧
    RET.PARAMERR ≠ RET.DATAERR := by
  decide

/-- C5 (amended): a missing required field or a format-invalid mobile is
rejected before any store access — the state is returned unchanged and the
response does not depend on the stores or on the fault environment — but
`register` uses the `PARAMERR` kind while `login` uses the `DATAERR` kind
(the kind `login` also uses for wrong credentials), so the two operations
do not share one input-validation kind. -/
theorem input_validation_kinds
    (maxT : Nat) (envR : RegEnv) (envL : LoginEnv) (st : St) (ip : String)
    (inpR : RegisterInput) (inpL : LoginInput)
    (hR : (truthy inpR.mobile && truthy inpR.sms_code
            && truthy inpR.password && truthy inpR.password2) = false
          ∨ matchMobile (inpR.mobile.getD "") = false)
    (hL : (inpL.mobile != "" && truthy inpL.password) = false
          ∨ matchMobile inpL.mobile = false) :
    (register envR st inpR).1.errno = RET.PARAMERR ∧
    (register envR st inpR).2 = st ∧
    (login maxT envL st ip inpL).1.errno = RET.DATAERR ∧
    (login maxT envL st ip inpL).2 = st ∧
    (∀ (envR2 : RegEnv) (st2 : St), (register envR st inpR).1 = (register envR2 st2 inpR).1) ∧
    (∀ (envL2 : LoginEnv) (st2 : St) (ip2 : String),
        (login maxT envL st ip inpL).1 = (login maxT envL2 st2 ip2 inpL).1) := by
  have hreg : ∀ (e : RegEnv) (s : St),
      (register e s inpR).1.errno = RET.PARAMERR ∧ (register e s inpR).2 = s ∧
      (register e s inpR).1 = (register envR st inpR).1 := by
    intro e s
    by_cases h1 : (truthy inpR.mobile && truthy inpR.sms_code
        && truthy inpR.password && truthy inpR.password2) = false
    · simp [register, h1]
    · rcases hR with h | h
      · exact absurd h h1
      · simp [register, h1, h]
  have hlog : ∀ (e : LoginEnv) (s : St) (i : String),
      (login maxT e s i inpL).1.errno = RET.DATAERR ∧ (login maxT e s i inpL).2 = s ∧
      (login maxT e s i inpL).1 = (login maxT envL st ip inpL).1 := by
    intro e s i
    by_cases h1 : (inpL.mobile != "" && truthy inpL.password) = false
    · simp [login, h1]
    · rcases hL with h | h
      · exact absurd h h1
      · simp [login, h1, h]
  refine ⟨(hreg envR st).1, (hreg envR st).2.1, (hlog envL st ip).1, (hlog envL st ip).2.1,
    fun e2 s2 => ((hreg e2 s2).2.2).symm, fun e2 s2 i2 => ((hlog e2 s2 i2).2.2).symm⟩

/-- Witness for `input_validation_kinds`: a missing password field. -/
theorem input_validation_kinds_witness :
    truthy (none : Option String) = false ∧
    (register ⟨false, false, DbAdd.ok⟩ ⟨[], [], [], none⟩
        ⟨some "13800001111", some "4321", none, none⟩).1.errno = RET.PARAMERR ∧
    (login 5 ⟨false, false, false, false⟩ ⟨[], [], [], none⟩ "ip"
        ⟨"13800001111", none⟩).1.errno = RET.DATAERR :=
  ⟨by decide,
    (input_validation_kinds 5 ⟨false, false, DbAdd.ok⟩ ⟨false, false, false, false⟩
        ⟨[], [], [], none⟩ "ip" ⟨some "13800001111", some "4321", none, none⟩
        ⟨"13800001111", none⟩ (Or.inl (by decide)) (Or.inl (by decide))).1,
    (input_validation_kinds 5 ⟨false, false, DbAdd.ok⟩ ⟨false, false, false, false⟩
        ⟨[], [], [], none⟩ "ip" ⟨some "13800001111", some "4321", none, none⟩
        ⟨"13800001111", none⟩ (Or.inl (by decide)) (Or.inl (by decide))).2.2.1⟩

/-- C6: when the read of the attempt counter raises, `login` treats the
request as not blocked (fail-open): it reduces to the credential phase and
can never answer `REQERR`. -/
theorem login_limiter_fail_open
    (maxT : Nat) (env : LoginEnv) (st : St) (ip m pw : String)
    (hm : matchMobile m = true) (hm0 : m ≠ "") (hpw : pw ≠ "")
    (henv : env.numGetRaises = true) :
    login maxT env st ip ⟨m, some pw⟩ = loginCredentialPhase env st ip ⟨m, some pw⟩ ∧
    (login maxT env st ip ⟨m, some pw⟩).1.errno ≠ RET.REQERR := by
  have hblocked : isBlocked maxT env st ip = false := by
    simp [isBlocked, henv]
  have heq : login maxT env st ip ⟨m, some pw⟩ = loginCredentialPhase env st ip ⟨m, some pw⟩ := by
    simp [login, truthy, hm, hm0, hpw, hblocked]
  refine ⟨heq, ?_⟩
  rw [heq]
  unfold loginCredentialPhase
  by_cases hqr : env.queryRaises
  · simp [hqr]
  · simp only [hqr]
    cases hfind : st.users.find? (fun u => u.mobile == (⟨m, some pw⟩ : LoginInput).mobile) with
    | none => simp [hfind]
    | some u =>
      by_cases hup : u.password = pw
      · simp [hfind, hup]
      · simp [hfind, hup]

/-- Witness for `login_limiter_fail_open`: the counter holds 99 but its
read raises, and the request still reaches the credential check. -/
theorem login_limiter_fail_open_witness :
    (⟨true, false, false, false⟩ : LoginEnv).numGetRaises = true ∧
    (login 5 ⟨true, false, false, false⟩ ⟨[], [("access_nums_ip", 99)], [], none⟩ "ip"
        ⟨"13800001111", some "pw"⟩).1.errno ≠ RET.REQERR :=
  ⟨rfl,
    (login_limiter_fail_open 5 ⟨true, false, false, false⟩
        ⟨[], [("access_nums_ip", 99)], [], none⟩ "ip" "13800001111" "pw"
        (by decide) (by decide) (by decide) rfl).2⟩

/-- C7: when the credential check fails, the response is the invalid
credentials one (`DATAERR`, `用户名或密码错误`) for every outcome of the
counter increment and the expiry refresh — a raising `recordFailure` never
masks the result. -/
theorem login_record_failure_never_masks
    (maxT : Nat) (st : St) (ip m pw : String) (incrR expireR : Bool)
    (hm : matchMobile m = true) (hm0 : m ≠ "") (hpw : pw ≠ "")
    (hnb : isBlocked maxT ⟨false, false, incrR, expireR⟩ st ip = false)
    (hfail : st.users.find? (fun u => u.mobile == m) = none ∨
             ∃ u, st.users.find? (fun v => v.mobile == m) = some u ∧ u.password ≠ pw) :
    (login maxT ⟨false, false, incrR, expireR⟩ st ip ⟨m, some pw⟩).1
        = ⟨RET.DATAERR, "用户名或密码错误"⟩ := by
  rcases hfail with hnone | ⟨u, hu, hup⟩
  · simp [login, truthy, hm, hm0, hpw, hnb, loginCredentialPhase, hnone]
  · simp [login, truthy, hm, hm0, hpw, hnb, loginCredentialPhase, hu, hup]

/-- Witness for `login_record_failure_never_masks`: the increment raises
yet the caller still sees the invalid-credentials response. -/
theorem login_record_failure_never_masks_witness :
    isBlocked 5 ⟨false, false, true, false⟩ ⟨[], [], [], none⟩ "ip" = false ∧
    (login 5 ⟨false, false, true, false⟩ ⟨[], [], [], none⟩ "ip"
        ⟨"13800001111", some "pw"⟩).1 = ⟨RET.DATAERR, "用户名或密码错误"⟩ :=
  ⟨by decide,
    login_record_failure_never_masks 5 ⟨[], [], [], none⟩ "ip" "13800001111" "pw"
      true false (by decide) (by decide) (by decide) (by decide)
      (Or.inl (by decide))⟩

/-- C8: a `register` request whose two passwords differ fails with the
`PARAMERR` kind, the state — in particular the verification-code store —
is returned unchanged, and the response does not depend on the stores or
the fault environment (no code is read or spent). -/
theorem register_password_mismatch_frame
    (env : RegEnv) (st : St) (inp : RegisterInput)
    (hne : inp.password ≠ inp.password2) :
    (register env st inp).1.errno = RET.PARAMERR ∧
    (register env st inp).2 = st ∧
    ∀ (env2 : RegEnv) (st2 : St), (register env st inp).1 = (register env2 st2 inp).1 := by
  have hall : ∀ (e : RegEnv) (s : St),
      (register e s inp).1.errno = RET.PARAMERR ∧ (register e s inp).2 = s ∧
      (register e s inp).1 = (register env st inp).1 := by
    intro e s
    by_cases h1 : (truthy inp.mobile && truthy inp.sms_code
        && truthy inp.password && truthy inp.password2) = false
    · simp [register, h1]
    · by_cases h2 : matchMobile (inp.mobile.getD "") = false
      · simp [register, h1, h2]
      · simp [register, h1, h2, hne]
  exact ⟨(hall env st).1, (hall env st).2.1, fun e2 s2 => ((hall e2 s2).2.2).symm⟩

/-- Witness for `register_password_mismatch_frame`: passwords `a` and `b`
leave the stored code for `13800001111` in place. -/
theorem register_password_mismatch_frame_witness :
    (some "a" : Option String) ≠ some "b" ∧
    (register ⟨false, false, DbAdd.ok⟩ ⟨[("sms_code_13800001111", "4321")], [], [], none⟩
        ⟨some "13800001111", some "4321", some "a", some "b"⟩).2
      = ⟨[("sms_code_13800001111", "4321")], [], [], none⟩ :=
  ⟨by decide,
    (register_password_mismatch_frame ⟨false, false, DbAdd.ok⟩
        ⟨[("sms_code_13800001111", "4321")], [], [], none⟩
        ⟨some "13800001111", some "4321", some "a", some "b"⟩ (by decide)).2.1⟩

/-- C9: a successful `login` answers `OK` and leaves the attempt counters —
and the whole key-value and user state — exactly as they were: no reset or
delete of the client's counter takes place. -/
theorem login_success_preserves_counter
    (maxT : Nat) (st : St) (ip m pw : String) (u : UserRec)
    (hm : matchMobile m = true) (hm0 : m ≠ "") (hpw : pw ≠ "")
    (hnb : isBlocked maxT ⟨false, false, false, false⟩ st ip = false)
    (hu : st.users.find? (fun v => v.mobile == m) = some u)
    (hupw : u.password = pw) :
    (login maxT ⟨false, false, false, false⟩ st ip ⟨m, some pw⟩).1.errno = RET.OK ∧
    (login maxT ⟨false, false, false, false⟩ st ip ⟨m, some pw⟩).2.nums = st.nums ∧
    (login maxT ⟨false, false, false, false⟩ st ip ⟨m, some pw⟩).2.codes = st.codes ∧
    (login maxT ⟨false, false, false, false⟩ st ip ⟨m, some pw⟩).2.users = st.users := by
  refine ⟨?_, ?_, ?_, ?_⟩ <;>
    simp [login, truthy, hm, hm0, hpw, hnb, loginCredentialPhase, hu, hupw]

/-- Witness for `login_success_preserves_counter`: a prior count of 3
survives a successful login untouched. -/
theorem login_success_preserves_counter_witness :
    ([⟨0, "u", "13800001111", "pw"⟩] : List UserRec).find?
        (fun v => v.mobile == "13800001111") = some ⟨0, "u", "13800001111", "pw"⟩ ∧
    (login 5 ⟨false, false, false, false⟩
        ⟨[], [("access_nums_ip", 3)], [⟨0, "u", "13800001111", "pw"⟩], none⟩ "ip"
        ⟨"13800001111", some "pw"⟩).2.nums = [("access_nums_ip", 3)] :=
  ⟨by decide,
    (login_success_preserves_counter 5
        ⟨[], [("access_nums_ip", 3)], [⟨0, "u", "13800001111", "pw"⟩], none⟩ "ip"
        "13800001111" "pw" ⟨0, "u", "13800001111", "pw"⟩
        (by decide) (by decide) (by decide) (by decide) (by decide) (by decide)).2.1⟩

/-- C10: the mobile-format check anchors only at the start: appending any
characters to a matching character list keeps it matching, the 14-character
string `13800001111abc` passes the check, and a `register` request carrying
it gets past input validation (it fails with `NODATA` on an empty code
store, not with the `PARAMERR` input-validation kind). -/
theorem mobile_pattern_ignores_trailing
    (cs ext : List Char) (h : matchMobileChars cs = true) :
    matchMobileChars (cs ++ ext) = true ∧
    matchMobile "13800001111abc" = true ∧
    (register ⟨false, false, DbAdd.ok⟩ ⟨[], [], [], none⟩
        ⟨some "13800001111abc", some "1", some "p", some "p"⟩).1.errno = RET.NODATA := by
  refine ⟨?_, by decide, by decide⟩
  match cs with
  | [] => exact absurd h (by simp [matchMobileChars])
  | [c0] => exact absurd h (by simp [matchMobileChars])
  | c0 :: c1 :: rest =>
    simp only [matchMobileChars, Bool.and_eq_true, decide_eq_true_eq] at h
    obtain ⟨⟨⟨h0, h1⟩, hlen⟩, hdig⟩ := h
    have happ : (c0 :: c1 :: rest) ++ ext = c0 :: c1 :: (rest ++ ext) := rfl
    rw [happ]
    simp only [matchMobileChars, Bool.and_eq_true, decide_eq_true_eq]
    refine ⟨⟨⟨h0, h1⟩, ?_⟩, ?_⟩
    · simpa using Nat.le_trans hlen (by simp)
    · rw [List.take_append_of_le_length hlen]
      exact hdig

/-- Witness for `mobile_pattern_ignores_trailing`: the characters of
`13800001111` extended with `abc` still match. -/
theorem mobile_pattern_ignores_trailing_witness :
    matchMobileChars ("13800001111".data) = true ∧
    matchMobileChars ("13800001111".data ++ ['a', 'b', 'c']) = true :=
  ⟨by decide,
    (mobile_pattern_ignores_trailing ("13800001111".data) ['a', 'b', 'c']
      (by decide)).1⟩

end Ihome
